import Mathlib

/-!
Shallow embedding of `src/main.py` (ArtiPop): a CLI that generates an image
through the Replicate API and uploads it to S3.  Python dicts are modelled as
insertion-ordered association lists; Python strings as Lean `String`
(sequences of code points); Python ints as `Nat`/`Int`; `None`-able values as
`Option`.  Floating-point `guidance` is never computed with by the program,
only passed through, so it is carried as its rendered decimal string.
-/

namespace ArtiPop

/-- The fixed model identifier (`MODEL_ID`, line 53). -/
def MODEL_ID : String := "stability-ai/stable-diffusion-3.5-large"

/-- Values that can appear in the Replicate job-description dict
(`inputs`, lines 81–89): strings, the passed-through float, or an int. -/
inductive JobVal where
  | str (v : String)
  | num (v : String)
  | int (v : Int)
deriving Repr, DecidableEq

/-- Lines 77–79 of `generate_image_with_replicate`:
`g = gcd(max(width,1), max(height,1)); ar = f"{width//g}:{height//g}"`. -/
def aspect (width height : Nat) : String :=
  Nat.repr (width / Nat.gcd (max width 1) (max height 1)) ++ ":" ++
    Nat.repr (height / Nat.gcd (max width 1) (max height 1))

/-- Lines 81–89: build the job description sent to `client.run`.
Insertion order: prompt, cfg, output_format, then seed (if not `None`),
then aspect_ratio (if it differs from `"1:1"`). -/
def buildInputs (prompt guidance : String) (seed : Option Int)
    (width height : Nat) (output_format : String) : List (String × JobVal) :=
  let base := [("prompt", JobVal.str prompt), ("cfg", JobVal.num guidance),
               ("output_format", JobVal.str output_format)]
  let withSeed := match seed with
    | some s => base ++ [("seed", JobVal.int s)]
    | none => base
  if aspect width height ≠ "1:1" then
    withSeed ++ [("aspect_ratio", JobVal.str (aspect width height))]
  else
    withSeed

/-- The full parameter surface of `generate_image_with_replicate`
(lines 64–72): `steps` is accepted "for compatibility" but never used when
building the job description. -/
def generateJobInputs (prompt : String) (steps : Int) (guidance : String)
    (seed : Option Int) (width height : Nat) (output_format : String) :
    List (String × JobVal) :=
  buildInputs prompt guidance seed width height output_format

/-- Substring search over code points: `subSearch p s = true` iff `p` occurs
contiguously in `s` (`p.isEmpty` makes the empty pattern occur everywhere,
matching Python's `"" in s`). -/
def subSearch (p : List Char) : List Char → Bool
  | [] => p.isEmpty
  | c :: t => p.isPrefixOf (c :: t) || subSearch p t

/-- Python's `pat in s` on strings. -/
def containsSub (s pat : String) : Bool := subSearch pat.data s.data

/-- Python's `str.lower` (ASCII-relevant part, via `Char.toLower`). -/
def lowerStr (s : String) : String := String.mk (s.data.map Char.toLower)

/-- What the except-block re-raises: either the original exception (a bare
`raise`, carrying the original message) or the replacement
`ValueError` raised on the 401 path. -/
inductive Signal where
  | reraised (msg : String)
  | invalidCredentials (msg : String)
deriving Repr, DecidableEq

/-- Outcome of the except-block: the `logger.error` lines it emitted and the
exception that leaves the function. -/
structure HandlerResult where
  logs : List String
  signal : Signal
deriving Repr, DecidableEq

/-- Lines 107–113: the except-block of `generate_image_with_replicate`,
as a function of the caught exception's message `str(e)`. -/
def handleProviderError (msg : String) : HandlerResult :=
  if containsSub msg "404" then
    { logs := ["Model slug not found: use \x27stability-ai/stable-diffusion-3.5-large\x27"],
      signal := .reraised msg }
  else if containsSub msg "401" || containsSub (lowerStr msg) "unauthorized" then
    { logs := [],
      signal := .invalidCredentials "Invalid Replicate token (REPLICATE_API_TOKEN)." }
  else
    { logs := [], signal := .reraised msg }

/-- Shapes the value returned by `client.run` can take, as the code probes
them (lines 96–104): a file-like object exposing `read` (its bytes), a plain
string treated as a URL, a Python list, or any other value (carrying the
Python type name that would appear in the `RuntimeError` message). -/
inductive ROut where
  | stream (data : List Nat)
  | url (u : String)
  | list (items : List ROut)
  | other (typeName : String)

/-- Errors the normalization of lines 96–104 can raise. -/
inductive NormError where
  | unexpectedType (typeName : String)
  | indexError
  | httpError (u : String)
deriving Repr, DecidableEq

/-- The Python type name reported by `type(fo)` in the `RuntimeError`. -/
def pyTypeName : ROut → String
  | .stream _ => "FileOutput"
  | .url _ => "str"
  | .list _ => "list"
  | .other t => t

/-- Lines 97–104 applied to the (possibly unwrapped) element `fo`:
`hasattr(fo, "read")` → read the bytes; `isinstance(fo, str)` → HTTP GET
(`http` returns `none` when `raise_for_status` fires); anything else →
`RuntimeError(f"Unexpected output type: ...")`. -/
def normalizeElem (http : String → Option (List Nat)) : ROut → Except NormError (List Nat)
  | .stream data => .ok data
  | .url u =>
    match http u with
    | some body => .ok body
    | none => .error (.httpError u)
  | fo => .error (.unexpectedType (pyTypeName fo))

/-- Line 96, `fo = out[0] if isinstance(out, list) else out`, followed by
lines 97–104: `out[0]` on an empty list raises `IndexError`. -/
def normalizeOutput (http : String → Option (List Nat)) : ROut → Except NormError (List Nat)
  | .list [] => .error .indexError
  | .list (fo :: _) => normalizeElem http fo
  | fo => normalizeElem http fo

/-- Current wall-clock date, as far as the program observes it. -/
structure Date where
  year : Nat
  month : Nat
  day : Nat
deriving Repr, DecidableEq

/-- Python `strftime("%m")` / `strftime("%d")`: zero-padded to two digits. -/
def pad2 (n : Nat) : String := if n < 10 then "0" ++ Nat.repr n else Nat.repr n

/-- Python `strftime("%Y-%m-%d")` (the `%Y` of any realistic year 1000–9999 is its
plain decimal digits). -/
def dateStamp (d : Date) : String :=
  Nat.repr d.year ++ "-" ++ pad2 d.month ++ "-" ++ pad2 d.day

/-- Embedding of `create_filename_with_date` (lines 115–121); `pre` is the `prefix`
parameter, `"sd3"` at every call site. -/
def create_filename_with_date (d : Date) (pre : String) : String :=
  pre ++ "_" ++ dateStamp d ++ ".png"

/-- Embedding of `create_s3_key_organized` (lines 123–134). -/
def create_s3_key_organized (d : Date) (base_path : String) : String :=
  base_path ++ "/" ++ Nat.repr d.year ++ "/" ++ pad2 d.month ++ "/" ++
    pad2 d.day ++ "/" ++ create_filename_with_date d "sd3"

/-- Python truthiness of `args.key : Optional[str]`: `None` and `""` are falsy. -/
def pyTruthyStr : Option String → Bool
  | none => false
  | some s => s != ""

/-- Key selection in `main` (lines 286–294).  Note `if args.key:` is a
truthiness test, so an empty-string key falls through to the generated names. -/
def mainS3Key (key : Option String) (organized : Bool) (d : Date) : String :=
  if pyTruthyStr key then key.getD ""
  else if organized then create_s3_key_organized d "images"
  else create_filename_with_date d "sd3"

/-- Embedding of `add_metadata_to_image` (lines 136–156): the ordered PNG text chunks.
`if seed:` is a truthiness test, so `None` and `0` both skip the entry. -/
def pngMetadata (prompt : String) (steps : Int) (guidance : String)
    (seed : Option Int) (generatedAt : String) : List (String × String) :=
  let head := [("prompt", prompt), ("steps", toString steps),
               ("guidance_scale", guidance)]
  let withSeed := match seed with
    | some n => if n ≠ 0 then head ++ [("seed", toString n)] else head
    | none => head
  withSeed ++ [("generated_at", generatedAt),
               ("model", "stable-diffusion-3.5-large"),
               ("generator", "replicate-client")]

/-- Python `prompt[:1024]`: the first 1024 code points. -/
def strTake (s : String) (n : Nat) : String := String.mk (s.data.take n)

/-- Embedding of the `upload_to_s3` metadata mirror (lines 177–186).  The dict literal holds
prompt (truncated), steps, guidance, generated-at, model, generator; the
seed entry, guarded by the same `if seed:` truthiness test, is added
afterwards and therefore comes last. -/
def s3Metadata (prompt : String) (steps : Int) (guidance : String)
    (seed : Option Int) (generatedAt : String) : List (String × String) :=
  let base := [("prompt", strTake prompt 1024), ("steps", toString steps),
               ("guidance", guidance), ("generated-at", generatedAt),
               ("model", "stable-diffusion-3.5-large"),
               ("generator", "replicate-client")]
  match seed with
  | some n => if n ≠ 0 then base ++ [("seed", toString n)] else base
  | none => base

/-- One step of the scan behind Python's `Path(s).name`: a finished component
counts only if it is non-empty and not `"."`. -/
def flushComp (cur acc : List Char) : List Char :=
  if cur.isEmpty || cur == ['.'] then acc else cur

/-- Scanner computing the last real path component (`cur` = component being
read, `acc` = last finished component so far). -/
def pathNameAux : List Char → List Char → List Char → List Char
  | [], cur, acc => flushComp cur acc
  | c :: rest, cur, acc =>
    if c = '/' then pathNameAux rest [] (flushComp cur acc)
    else pathNameAux rest (cur ++ [c]) acc

/-- Python `Path(s).name`: the final path component ("" for paths such as
`""`, `"/"` or `"."`; trailing slashes and `"."` components do not count,
as `pathlib` normalises them away). -/
def pathName (s : String) : String := String.mk (pathNameAux s.data [] [])

/-- Line 297 of `main`: `tmp_path = Path("/tmp") / Path(s3_key).name`
(joining with an empty name leaves `/tmp` unchanged). -/
def tmpPath (key : String) : String :=
  if pathName key = "" then "/tmp" else "/tmp/" ++ pathName key

/-- Python `region = region or "eu-central-1"` (line 174). -/
def regionOrDefault : Option String → String
  | none => "eu-central-1"
  | some r => if r = "" then "eu-central-1" else r

/-- The dictionary `upload_to_s3` returns on success (lines 204–215). -/
structure UploadResult where
  s3_uri : String
  public_url : String
  key : String
  filename : String
  bucket : String
  region : String
  is_public : Bool
  generated_at : String
  prompt : String
  metadata : List (String × String)
deriving Repr, DecidableEq

/-- Embedding of `upload_to_s3` (lines 158–221), success path: the returned dictionary.
`now` stands for the `datetime.now().isoformat()` reads. -/
def upload_to_s3 (bucket key prompt : String) (steps : Int) (guidance : String)
    (seed : Option Int) (region : Option String) (pub : Bool)
    (now : String) : UploadResult :=
  let reg := regionOrDefault region
  { s3_uri := "s3://" ++ bucket ++ "/" ++ key,
    public_url := "https://" ++ bucket ++ ".s3." ++ reg ++ ".amazonaws.com/" ++ key,
    key := key,
    filename := pathName key,
    bucket := bucket,
    region := reg,
    is_public := pub,
    generated_at := now,
    prompt := prompt,
    metadata := s3Metadata prompt steps guidance seed now }

/-- Filesystem-relevant events of `main` from the temporary save onward
(lines 296–316). -/
inductive Ev where
  | saveTmp
  | uploadAttempt (ok : Bool)
  | unlinkTmp
deriving Repr, DecidableEq

/-- Straight-line trace of `main` from `img.save(tmp_path)` onward: on upload
success execution reaches `tmp_path.unlink()` (line 315); an upload exception
jumps to the top-level handler (lines 344–346), which only logs and returns 1
— no `finally` block and no unlink runs on that path. -/
def mainUploadTrace (uploadOk : Bool) : List Ev :=
  if uploadOk then [.saveTmp, .uploadAttempt true, .unlinkTmp]
  else [.saveTmp, .uploadAttempt false]

/-- Exit code of `main` for the two upload outcomes (lines 338 and 346). -/
def mainExitCode (uploadOk : Bool) : Nat := if uploadOk then 0 else 1

/-- Whether the temporary file exists after a trace (it does not exist
before the save). -/
def tmpExistsAfter (tr : List Ev) : Bool :=
  tr.foldl (fun st e =>
    match e with
    | .saveTmp => true
    | .unlinkTmp => false
    | .uploadAttempt _ => st) false

/-- Reduction invariance of the aspect-ratio string: dividing both dimensions
by a common divisor does not change it. -/
theorem aspect_div_common (w h k : Nat) (hw : 0 < w) (hh : 0 < h)
    (hkw : k ∣ w) (hkh : k ∣ h) : aspect (w / k) (h / k) = aspect w h := by
  have hk : 0 < k := Nat.pos_of_dvd_of_pos hkw hw
  obtain ⟨w', rfl⟩ := hkw
  obtain ⟨h', rfl⟩ := hkh
  have hw' : 0 < w' := Nat.pos_of_mul_pos_left (by rwa [Nat.mul_comm] at hw)
  have hh' : 0 < h' := Nat.pos_of_mul_pos_left (by rwa [Nat.mul_comm] at hh)
  rw [Nat.mul_div_cancel_left w' hk, Nat.mul_div_cancel_left h' hk]
  unfold aspect
  rw [Nat.max_eq_left hw, Nat.max_eq_left hh, Nat.max_eq_left hw',
    Nat.max_eq_left hh', Nat.gcd_mul_left, Nat.mul_div_mul_left _ _ hk,
    Nat.mul_div_mul_left _ _ hk]

/-- C1 counterexample: the claim says the temporary file is absent after a
failed upload attempt, but on the failure path `main` jumps from the
`upload_to_s3` call straight to the top-level exception handler, which
returns 1 without ever running `tmp_path.unlink()` — the file remains. -/
theorem C1_counterexample :
    tmpExistsAfter (mainUploadTrace false) = true ∧ mainExitCode false = 1 := by
  decide

/-- C1 (amended): the temporary file is deleted after a successful upload,
but after a failed upload attempt it remains on disk: the file exists at
exit exactly when the upload failed. -/
theorem C1_cleanup_only_on_success (uploadOk : Bool) :
    tmpExistsAfter (mainUploadTrace uploadOk) = !uploadOk := by
  cases uploadOk <;> rfl

/-- C2 counterexample: a two-element list — a shape that is none of the
three listed ones — is not a fatal error; the code silently takes the first
element and succeeds. -/
theorem C2_counterexample :
    normalizeOutput (fun _ => none) (.list [.stream [7], .other "int"])
      = .ok [7] := rfl

/-- C2 (amended): the bare-stream, one-element-list and URL shapes resolve
exactly one payload and yield bit-identical bytes (hence bit-identical
decoded images under any decoder); a bare value, or first list element,
that is neither readable nor a string is a fatal `RuntimeError` reporting
the concrete type; an empty list is a fatal `IndexError`; but a list with
more than one element is accepted, its first element alone being used. -/
theorem C2_normalization (data : List Nat) (u : String)
    (http : String → Option (List Nat)) (hu : http u = some data) :
    normalizeOutput http (.stream data) = .ok data
    ∧ normalizeOutput http (.list [.stream data]) = .ok data
    ∧ normalizeOutput http (.url u) = .ok data
    ∧ (∀ (α : Type) (decode : List Nat → α),
        (normalizeOutput http (.stream data)).map decode
            = (normalizeOutput http (.url u)).map decode
        ∧ (normalizeOutput http (.stream data)).map decode
            = (normalizeOutput http (.list [.stream data])).map decode)
    ∧ (∀ t, normalizeOutput http (.other t) = .error (.unexpectedType t))
    ∧ normalizeOutput http (.list []) = .error .indexError
    ∧ (∀ rest, normalizeOutput http (.list (.stream data :: rest)) = .ok data)
    ∧ (∀ t rest, normalizeOutput http (.list (.other t :: rest))
        = .error (.unexpectedType t))
    ∧ (∀ items rest, normalizeOutput http (.list (.list items :: rest))
        = .error (.unexpectedType "list")) := by
  have hurl : normalizeOutput http (.url u) = .ok data := by
    simp [normalizeOutput, normalizeElem, hu]
  refine ⟨rfl, rfl, hurl, ?_, fun _ => rfl, rfl, fun _ => rfl,
    fun _ _ => rfl, fun _ _ => rfl⟩
  intro α decode
  rw [hurl]
  exact ⟨rfl, rfl⟩

/-- C2 witness: the amended theorem applied at concrete bytes and URL. -/
theorem C2_normalization_witness :
    normalizeOutput (fun _ => some [9, 9]) (.url "https://x/img.png") = .ok [9, 9]
    ∧ normalizeOutput (fun _ => some [9, 9]) (.stream [9, 9]) = .ok [9, 9] := by
  have h := C2_normalization [9, 9] "https://x/img.png" (fun _ => some [9, 9]) rfl
  exact ⟨h.2.2.1, h.1⟩

/-- C3: for positive dimensions the job description contains exactly the
prompt verbatim, the guidance under the provider field name "cfg", the
output format, the seed iff it is non-null, and the aspect-ratio string iff
it differs from "1:1"; and the aspect-ratio string is invariant under
dividing both dimensions by any common divisor. -/
theorem C3_job_description (prompt guidance output_format : String)
    (seed : Option Int) (w h : Nat) (hw : 0 < w) (hh : 0 < h) :
    buildInputs prompt guidance seed w h output_format
      = [("prompt", JobVal.str prompt), ("cfg", JobVal.num guidance),
         ("output_format", JobVal.str output_format)]
        ++ (match seed with
            | some s => [("seed", JobVal.int s)]
            | none => [])
        ++ (if aspect w h = "1:1" then []
            else [("aspect_ratio", JobVal.str (aspect w h))])
    ∧ (∀ k, k ∣ w → k ∣ h → aspect (w / k) (h / k) = aspect w h) := by
  constructor
  · by_cases har : aspect w h = "1:1" <;> cases seed <;>
      simp [buildInputs, har]
  · exact fun k hkw hkh => aspect_div_common w h k hw hh hkw hkh

/-- C3 witness: the theorem applied at 1920×1080 with seed 7 and common
divisor 120. -/
theorem C3_job_description_witness :
    buildInputs "a cat" "3.5" (some 7) 1920 1080 "png"
      = [("prompt", JobVal.str "a cat"), ("cfg", JobVal.num "3.5"),
         ("output_format", JobVal.str "png"), ("seed", JobVal.int 7),
         ("aspect_ratio", JobVal.str "16:9")]
    ∧ aspect 16 9 = aspect 1920 1080 := by
  have h := C3_job_description "a cat" "3.5" "png" (some 7) 1920 1080
    (by decide) (by decide)
  exact ⟨h.1.trans (by decide), h.2 120 (by decide) (by decide)⟩

/-- C4 counterexample: width 0 is non-positive, yet the code raises nothing
— it clamps only inside the gcd and happily builds a job description with
aspect-ratio "0:1024". -/
theorem C4_counterexample :
    buildInputs "p" "3.5" none 0 1024 "png"
      = [("prompt", JobVal.str "p"), ("cfg", JobVal.num "3.5"),
         ("output_format", JobVal.str "png"),
         ("aspect_ratio", JobVal.str "0:1024")] := by decide

/-- C4 (amended): a zero dimension is not rejected as a caller contract
violation; the normalizer produces a job description anyway, whose
aspect-ratio field carries the unclamped zero (shown here for width 0). -/
theorem C4_no_validation (prompt guidance output_format : String)
    (seed : Option Int) (h : Nat) :
    buildInputs prompt guidance seed 0 h output_format
      = [("prompt", JobVal.str prompt), ("cfg", JobVal.num guidance),
         ("output_format", JobVal.str output_format)]
        ++ (match seed with
            | some s => [("seed", JobVal.int s)]
            | none => [])
        ++ [("aspect_ratio", JobVal.str ("0:" ++ Nat.repr h))] := by
  have hmax : max 0 1 = 1 := rfl
  have ha : aspect 0 h = "0:" ++ Nat.repr h := by
    unfold aspect
    rw [hmax, Nat.gcd_one_left, Nat.zero_div, Nat.div_one]
    rfl
  have hne : aspect 0 h ≠ "1:1" := by
    rw [ha]
    intro heq
    have h2 := congrArg String.data heq
    rw [String.data_append] at h2
    have h3 : ('0' :: ':' :: (Nat.repr h).data) = ['1', ':', '1'] := h2
    injection h3 with h4 _
    exact absurd h4 (by decide)
  unfold buildInputs
  rw [if_pos hne, ha]
  cases seed <;> simp

/-- C5: the except-block classifies provider errors by message: a message
containing "404" gets the model-not-found log line (which names the correct
model identifier) and the original error then propagates; otherwise a
message containing "401" or (case-insensitively) "unauthorized" is replaced
by the distinguishing invalid-credentials `ValueError` — the handler runs
once per generation attempt, there is no retry construct; every other
message leaves the original error re-raised unchanged. -/
theorem C5_provider_error_classes (msg : String) :
    (containsSub msg "404" = true →
      handleProviderError msg
        = { logs := ["Model slug not found: use \x27stability-ai/stable-diffusion-3.5-large\x27"],
            signal := .reraised msg }
      ∧ containsSub
          "Model slug not found: use \x27stability-ai/stable-diffusion-3.5-large\x27"
          MODEL_ID = true)
    ∧ (containsSub msg "404" = false →
        (containsSub msg "401" || containsSub (lowerStr msg) "unauthorized") = true →
        handleProviderError msg
          = { logs := [],
              signal := .invalidCredentials
                "Invalid Replicate token (REPLICATE_API_TOKEN)." })
    ∧ (containsSub msg "404" = false →
        (containsSub msg "401" || containsSub (lowerStr msg) "unauthorized") = false →
        handleProviderError msg = { logs := [], signal := .reraised msg }) := by
  refine ⟨fun h1 => ⟨?_, by decide⟩, fun h1 h2 => ?_, fun h1 h2 => ?_⟩
  · simp [handleProviderError, h1]
  · simp [handleProviderError, h1, h2]
  · simp [handleProviderError, h1, h2]

/-- C5 witness: the three classes at concrete messages. -/
theorem C5_provider_error_classes_witness :
    handleProviderError "HTTP 404 Not Found"
      = { logs := ["Model slug not found: use \x27stability-ai/stable-diffusion-3.5-large\x27"],
          signal := .reraised "HTTP 404 Not Found" }
    ∧ handleProviderError "401 Client Error: Unauthorized"
      = { logs := [],
          signal := .invalidCredentials
            "Invalid Replicate token (REPLICATE_API_TOKEN)." }
    ∧ handleProviderError "connection reset"
      = { logs := [], signal := .reraised "connection reset" } := by
  refine ⟨((C5_provider_error_classes "HTTP 404 Not Found").1 (by decide)).1,
    (C5_provider_error_classes "401 Client Error: Unauthorized").2.1
      (by decide) (by decide),
    (C5_provider_error_classes "connection reset").2.2 (by decide) (by decide)⟩

/-- C6 counterexample: an explicit but empty key is not used verbatim —
`if args.key:` is a truthiness test, so with `--key ""` and the organized
flag the date-organized name wins instead of the supplied "". -/
theorem C6_counterexample :
    mainS3Key (some "") true ⟨2025, 10, 13⟩
        = "images/2025/10/13/sd3_2025-10-13.png"
    ∧ mainS3Key (some "") true ⟨2025, 10, 13⟩ ≠ "" := by decide

/-- C6 (amended): a non-empty explicit key is used verbatim regardless of
the organized flag (an empty explicit key is treated as absent); otherwise
the organized flag yields images/YYYY/MM/DD/sd3_YYYY-MM-DD.png and the
default a bare sd3_YYYY-MM-DD.png, month and day zero-padded to two digits
(concrete date 2025-10-13 shown, as well as the general shape). -/
theorem C6_key_derivation (k : String) (organized : Bool) (d : Date)
    (hk : k ≠ "") :
    mainS3Key (some k) organized d = k
    ∧ mainS3Key none true d
        = "images/" ++ Nat.repr d.year ++ "/" ++ pad2 d.month ++ "/"
          ++ pad2 d.day ++ "/"
          ++ ("sd3_" ++ (Nat.repr d.year ++ "-" ++ pad2 d.month ++ "-"
              ++ pad2 d.day) ++ ".png")
    ∧ mainS3Key none false d
        = "sd3_" ++ (Nat.repr d.year ++ "-" ++ pad2 d.month ++ "-"
            ++ pad2 d.day) ++ ".png"
    ∧ (∀ m, m < 100 → (pad2 m).length = 2)
    ∧ mainS3Key none true ⟨2025, 10, 13⟩
        = "images/2025/10/13/sd3_2025-10-13.png"
    ∧ mainS3Key none false ⟨2025, 10, 13⟩ = "sd3_2025-10-13.png" := by
  refine ⟨?_, ?_, ?_, by decide, by decide, by decide⟩
  · simp [mainS3Key, pyTruthyStr, hk]
  · simp [mainS3Key, pyTruthyStr, create_s3_key_organized,
      create_filename_with_date, dateStamp, String.append_assoc]
  · simp [mainS3Key, pyTruthyStr, create_filename_with_date, dateStamp,
      String.append_assoc]

/-- C6 witness: the amended theorem at key "foo.png" and date 2025-10-13. -/
theorem C6_key_derivation_witness :
    mainS3Key (some "foo.png") true ⟨2025, 10, 13⟩ = "foo.png"
    ∧ mainS3Key none true ⟨2025, 10, 13⟩
        = "images/2025/10/13/sd3_2025-10-13.png" := by
  have h := C6_key_derivation "foo.png" true ⟨2025, 10, 13⟩ (by decide)
  exact ⟨h.1, h.2.2.2.2.1⟩

/-- C7: a seed of `None` or 0 is omitted from both the PNG metadata and the
S3 metadata mirror; any non-zero seed appears in both under key "seed" as
its exact decimal string. -/
theorem C7_seed_truthiness (prompt guidance now : String) (steps : Int)
    (seed : Option Int) :
    (pngMetadata prompt steps guidance seed now).lookup "seed"
        = (match seed with
           | none => none
           | some n => if n = 0 then none else some (toString n))
    ∧ (s3Metadata prompt steps guidance seed now).lookup "seed"
        = (match seed with
           | none => none
           | some n => if n = 0 then none else some (toString n)) := by
  cases seed with
  | none => exact ⟨rfl, rfl⟩
  | some n =>
    by_cases hn : n = 0
    · subst hn; exact ⟨rfl, rfl⟩
    · constructor <;>
        simp [pngMetadata, s3Metadata, hn, List.lookup]

/-- C8: the steps value never reaches the job description (the description
does not depend on it and has no "steps" field), yet both metadata mirrors
carry it stringified. -/
theorem C8_steps_routing (prompt guidance output_format now : String)
    (seed : Option Int) (w h : Nat) (steps steps2 : Int) :
    generateJobInputs prompt steps guidance seed w h output_format
        = generateJobInputs prompt steps2 guidance seed w h output_format
    ∧ (generateJobInputs prompt steps guidance seed w h output_format).lookup
        "steps" = none
    ∧ (pngMetadata prompt steps guidance seed now).lookup "steps"
        = some (toString steps)
    ∧ (s3Metadata prompt steps guidance seed now).lookup "steps"
        = some (toString steps) := by
  refine ⟨rfl, ?_, ?_, ?_⟩
  · cases seed <;> by_cases har : aspect w h = "1:1" <;>
      simp [generateJobInputs, buildInputs, har, List.lookup]
  · cases seed with
    | none => rfl
    | some n => by_cases hn : n = 0 <;> simp [pngMetadata, hn, List.lookup]
  · cases seed with
    | none => rfl
    | some n => by_cases hn : n = 0 <;> simp [s3Metadata, hn, List.lookup]

/-- C9: the S3 metadata mirror stores the prompt truncated to its first
1024 code points (exactly 1024 when longer), while the PNG metadata and the
`prompt` field of the upload result keep it untouched. -/
theorem C9_prompt_truncation (prompt guidance now bucket key : String)
    (steps : Int) (seed : Option Int) (region : Option String) (pub : Bool) :
    (s3Metadata prompt steps guidance seed now).lookup "prompt"
        = some (strTake prompt 1024)
    ∧ (strTake prompt 1024).length ≤ 1024
    ∧ (1024 < prompt.length → (strTake prompt 1024).length = 1024)
    ∧ (pngMetadata prompt steps guidance seed now).lookup "prompt"
        = some prompt
    ∧ (upload_to_s3 bucket key prompt steps guidance seed region pub now).prompt
        = prompt := by
  refine ⟨?_, ?_, ?_, ?_, rfl⟩
  · cases seed with
    | none => rfl
    | some n => by_cases hn : n = 0 <;> simp [s3Metadata, hn, List.lookup]
  · show (prompt.data.take 1024).length ≤ 1024
    simp [List.length_take]
  · intro hlong
    show (prompt.data.take 1024).length = 1024
    have hl : 1024 < prompt.data.length := hlong
    simp [List.length_take]
    omega
  · cases seed with
    | none => rfl
    | some n => by_cases hn : n = 0 <;> simp [pngMetadata, hn, List.lookup]

/-- C9 witness: a 2000-character prompt is cut to exactly 1024 characters
in the S3 mirror. -/
theorem C9_prompt_truncation_witness :
    (strTake (String.mk (List.replicate 2000 'a')) 1024).length = 1024 := by
  refine (C9_prompt_truncation (String.mk (List.replicate 2000 'a')) "3.5" "T"
    "b" "k" 28 none none false).2.2.1 ?_
  show 1024 < (List.replicate 2000 'a').length
  rw [List.length_replicate]
  omega

/-- Scanning a separator splits the `pathName` scan: the prefix's own result
becomes the accumulator for the rest. -/
theorem pathNameAux_append_slash (xs : List Char) :
    ∀ ys cur acc, pathNameAux (xs ++ '/' :: ys) cur acc
      = pathNameAux ys [] (pathNameAux xs cur acc) := by
  induction xs with
  | nil => intro ys cur acc; simp [pathNameAux]
  | cons c xs ih =>
    intro ys cur acc
    by_cases hc : c = '/'
    · subst hc; simp [pathNameAux, ih]
    · simp [pathNameAux, hc, ih]

/-- On slash-free input the scan just extends the current component. -/
theorem pathNameAux_no_slash (ys : List Char) (h : '/' ∉ ys) :
    ∀ cur acc, pathNameAux ys cur acc = flushComp (cur ++ ys) acc := by
  induction ys with
  | nil => intro cur acc; simp [pathNameAux]
  | cons c ys ih =>
    intro cur acc
    have hc : c ≠ '/' := fun he => h (he ▸ List.mem_cons_self c ys)
    have hys : '/' ∉ ys := fun hm => h (List.mem_cons_of_mem c hm)
    simp [pathNameAux, hc, ih hys, List.append_assoc]

/-- A non-empty string other than "." survives `flushComp` unchanged. -/
theorem flushComp_of_proper (t : String) (hne : t ≠ "") (hdot : t ≠ ".")
    (acc : List Char) : flushComp t.data acc = t.data := by
  have hd1 : t.data ≠ [] := by
    intro h0
    apply hne
    cases t with
    | mk data => exact congrArg String.mk h0
  have hd2 : t.data ≠ ['.'] := by
    intro h0
    apply hdot
    cases t with
    | mk data => exact congrArg String.mk h0
  simp [flushComp, hd1, hd2]

/-- The name of the path `s ++ "/" ++ t` is `t` whenever `t` is a proper
slash-free final component. -/
theorem pathName_append_slash (s t : String) (ht : '/' ∉ t.data)
    (hne : t ≠ "") (hdot : t ≠ ".") : pathName (s ++ "/" ++ t) = t := by
  unfold pathName
  have hdata : (s ++ "/" ++ t).data = s.data ++ '/' :: t.data := by
    rw [String.data_append, String.data_append]
    simp
  rw [hdata, pathNameAux_append_slash, pathNameAux_no_slash _ ht]
  rw [List.nil_append, flushComp_of_proper t hne hdot]

/-- The name of a proper slash-free path `t` is `t` itself. -/
theorem pathName_no_slash (t : String) (ht : '/' ∉ t.data)
    (hne : t ≠ "") (hdot : t ≠ ".") : pathName t = t := by
  unfold pathName
  rw [pathNameAux_no_slash _ ht, List.nil_append,
    flushComp_of_proper t hne hdot]

/-- The characters `Nat.repr` emits are decimal digits, never '/'. -/
theorem digitChar_ne_slash (n : Nat) (h : n < 10) : Nat.digitChar n ≠ '/' := by
  interval_cases n <;> decide

/-- Function `Nat.toDigitsCore` never introduces a slash. -/
theorem toDigitsCore_no_slash (fuel : Nat) :
    ∀ n ds, '/' ∉ ds → '/' ∉ Nat.toDigitsCore 10 fuel n ds := by
  induction fuel with
  | zero => intro n ds hds; simpa [Nat.toDigitsCore] using hds
  | succ fuel ih =>
    intro n ds hds
    have hd : Nat.digitChar (n % 10) ≠ '/' :=
      digitChar_ne_slash _ (Nat.mod_lt _ (by omega))
    have hcons : '/' ∉ Nat.digitChar (n % 10) :: ds := by
      intro hm
      rcases List.mem_cons.mp hm with h1 | h1
      · exact hd h1.symm
      · exact hds h1
    by_cases h0 : n / 10 = 0
    · simpa [Nat.toDigitsCore, h0] using hcons
    · simpa [Nat.toDigitsCore, h0] using ih (n / 10) _ hcons

/-- The decimal rendering of a natural number contains no '/'. -/
theorem repr_no_slash (n : Nat) : '/' ∉ (Nat.repr n).data := by
  have h := toDigitsCore_no_slash (n + 1) n [] (by simp)
  simpa [Nat.repr, Nat.toDigits, List.asString] using h

/-- Output of `pad2` contains no slash. -/
theorem pad2_no_slash (n : Nat) : '/' ∉ (pad2 n).data := by
  unfold pad2
  split
  · rw [String.data_append]
    intro hm
    rcases List.mem_append.mp hm with h1 | h1
    · exact absurd h1 (by decide)
    · exact repr_no_slash n h1
  · exact repr_no_slash n

/-- A '/'-free character can not appear in the append of two '/'-free strings. -/
theorem append_no_slash (s t : String) (hs : '/' ∉ s.data)
    (ht : '/' ∉ t.data) : '/' ∉ (s ++ t).data := by
  intro hm
  rw [String.data_append] at hm
  rcases List.mem_append.mp hm with h | h
  · exact hs h
  · exact ht h

/-- The date stamp contains no '/'. -/
theorem dateStamp_no_slash (d : Date) : '/' ∉ (dateStamp d).data := by
  unfold dateStamp
  exact append_no_slash _ _ (append_no_slash _ _ (append_no_slash _ _
    (append_no_slash _ _ (repr_no_slash d.year) (by decide))
    (pad2_no_slash d.month)) (by decide)) (pad2_no_slash d.day)

/-- The generated flat filename contains no '/'. -/
theorem filename_no_slash (d : Date) :
    '/' ∉ (create_filename_with_date d "sd3").data := by
  unfold create_filename_with_date
  exact append_no_slash _ _ (append_no_slash _ _ (append_no_slash _ _
    (by decide) (by decide)) (dateStamp_no_slash d)) (by decide)

/-- The generated flat filename starts with 's'. -/
theorem filename_head (d : Date) :
    (create_filename_with_date d "sd3").data.head? = some 's' := rfl

/-- The generated flat filename is a proper component. -/
theorem filename_ne_empty (d : Date) :
    create_filename_with_date d "sd3" ≠ "" := by
  intro h
  have h2 : (create_filename_with_date d "sd3").data.head? = some 's' :=
    filename_head d
  rw [h] at h2
  exact absurd h2 (by decide)

/-- The generated flat filename is not ".". -/
theorem filename_ne_dot (d : Date) :
    create_filename_with_date d "sd3" ≠ "." := by
  intro h
  have h2 : (create_filename_with_date d "sd3").data.head? = some 's' :=
    filename_head d
  rw [h] at h2
  exact absurd h2 (by decide)

/-- C10: the temporary file path is `/tmp` joined with only the final
component of the storage key: "a/b/c.png" lands at /tmp/c.png, both the
organized-by-date key and the default key land at /tmp/sd3_YYYY-MM-DD.png —
so any two key-less runs on the same calendar date use the identical
temporary path. -/
theorem C10_tmp_path (key : String) (d : Date) (hk : pathName key ≠ "") :
    tmpPath "a/b/c.png" = "/tmp/c.png"
    ∧ tmpPath key = "/tmp/" ++ pathName key
    ∧ tmpPath (mainS3Key none true d)
        = "/tmp/" ++ create_filename_with_date d "sd3"
    ∧ tmpPath (mainS3Key none false d)
        = "/tmp/" ++ create_filename_with_date d "sd3"
    ∧ tmpPath (mainS3Key none true d) = tmpPath (mainS3Key none false d) := by
  have horg : mainS3Key none true d = create_s3_key_organized d "images" := rfl
  have hflat : mainS3Key none false d = create_filename_with_date d "sd3" := rfl
  have hporg : pathName (mainS3Key none true d)
      = create_filename_with_date d "sd3" := by
    rw [horg]
    unfold create_s3_key_organized
    exact pathName_append_slash _ _ (filename_no_slash d) (filename_ne_empty d)
      (filename_ne_dot d)
  have hpflat : pathName (mainS3Key none false d)
      = create_filename_with_date d "sd3" := by
    rw [hflat]
    exact pathName_no_slash _ (filename_no_slash d) (filename_ne_empty d)
      (filename_ne_dot d)
  have hne : create_filename_with_date d "sd3" ≠ "" := filename_ne_empty d
  refine ⟨by decide, ?_, ?_, ?_, ?_⟩
  · unfold tmpPath
    rw [if_neg hk]
  · unfold tmpPath
    rw [hporg, if_neg hne]
  · unfold tmpPath
    rw [hpflat, if_neg hne]
  · unfold tmpPath
    rw [hporg, hpflat]

/-- C10 witness: the theorem at key "x/y.png" and date 2025-10-13. -/
theorem C10_tmp_path_witness :
    tmpPath "x/y.png" = "/tmp/" ++ pathName "x/y.png"
    ∧ tmpPath (mainS3Key none true ⟨2025, 10, 13⟩)
        = "/tmp/" ++ create_filename_with_date ⟨2025, 10, 13⟩ "sd3" := by
  have h := C10_tmp_path "x/y.png" ⟨2025, 10, 13⟩ (by decide)
  exact ⟨h.2.1, h.2.2.1⟩

end ArtiPop
